import Mathlib

/-!
Shallow embedding of the message-routing core of the chainlit-bootstrap
repository: the command classifier, the PII anonymization pass, the
web-search response path, the document-ingestion state update, the
document-answer source listing, and the general-chat fallback, together
with theorems about their behavior.

External collaborators (the entity-recognition engine, the search API
client, the language model, and the retrieval chain) are modelled as
explicit parameters or outcome values, exactly at the boundaries where
the source code calls them.
-/

namespace ChainlitBootstrap

/-! ### Python string primitives

The handlers operate on Python `str` values via `strip`, `lower`,
`startswith`, slicing, and `split(maxsplit=1)`.  These are embedded on
`List Char` / `String`.  `pyIsSpace` covers the ASCII whitespace
characters Python's default `strip`/`split` treat as separators; string
lowering is embedded at ASCII precision (the command prefixes and all
claim inputs are ASCII). -/

def pyIsSpace (c : Char) : Bool :=
  c = ' ' || c = '\t' || c = '\n' || c = '\r' || c = Char.ofNat 11 || c = Char.ofNat 12

def lstripList (l : List Char) : List Char :=
  l.dropWhile pyIsSpace

def rstripList (l : List Char) : List Char :=
  (l.reverse.dropWhile pyIsSpace).reverse

def stripList (l : List Char) : List Char :=
  rstripList (lstripList l)

/-- Python `s.strip()`. -/
def pyStrip (s : String) : String :=
  ⟨stripList s.data⟩

/-- Python `s.lower()` (ASCII precision). -/
def pyLower (s : String) : String :=
  ⟨s.data.map Char.toLower⟩

/-- Python `s.startswith(p)`. -/
def pyStartsWith (s p : String) : Bool :=
  p.data.isPrefixOf s.data

/-- Python `s[n:]` (character slicing). -/
def pyDrop (s : String) (n : Nat) : String :=
  ⟨s.data.drop n⟩

/-- Python `s.split(maxsplit=1)` with the default whitespace separator:
leading whitespace is skipped; the first token is everything up to the
next whitespace run; the remainder after that run is kept verbatim and
dropped when empty. -/
def pySplitMax1 (s : String) : List String :=
  let l := s.data.dropWhile pyIsSpace
  if l = [] then []
  else
    let tok := l.takeWhile (fun c => !pyIsSpace c)
    let rest := (l.dropWhile (fun c => !pyIsSpace c)).dropWhile pyIsSpace
    if rest = [] then [⟨tok⟩] else [⟨tok⟩, ⟨rest⟩]

/-- Python `x or y` for an optional string operand: `None` and the empty
string are falsy. -/
def pyOrString (v : Option String) (d : String) : String :=
  match v with
  | some s => if s = "" then d else s
  | none => d

/-! ### Command Classifier (`handlers._extract_search_query`) -/

/-- The query extraction shared by the `/search` and `!search` branches of
`_extract_search_query`: `parts = trimmed.split(maxsplit=1)` followed by
`parts[1].strip() if len(parts) > 1 else ""` (the source duplicates this
code verbatim in both branches). -/
def commandTailQuery (trimmed : String) : String :=
  match pySplitMax1 trimmed with
  | _ :: rest :: _ => pyStrip rest
  | _ => ""

/-- `handlers._extract_search_query`: returns the search query when the
user message carries a search command, `none` otherwise.  The colon
prefixes are checked in the source's tuple order with `trimmed[len(p):]`
slicing; the prefix lengths 7, 7, 4, 7 are the character counts of
`/search`, `search:`, `web:`, `lookup:`. -/
def _extract_search_query (userInput : String) : Option String :=
  if userInput = "" then none
  else
    let trimmed := pyStrip userInput
    let lowerTrimmed := pyLower trimmed
    if pyStartsWith lowerTrimmed ("/search") then some (commandTailQuery trimmed)
    else if pyStartsWith lowerTrimmed ("!search") then some (commandTailQuery trimmed)
    else if pyStartsWith lowerTrimmed ("search:") then some (pyStrip (pyDrop trimmed 7))
    else if pyStartsWith lowerTrimmed ("web:") then some (pyStrip (pyDrop trimmed 4))
    else if pyStartsWith lowerTrimmed ("lookup:") then some (pyStrip (pyDrop trimmed 7))
    else none

/-! ### PII Filter (`pii.anonymize_text`)

The Presidio analyzer and anonymizer engines are external collaborators;
they are modelled as function-valued fields.  `pii.py` stores them in
module globals that are `None` exactly when redaction is disabled (or,
for the analyzer, never `None` when enabled, since `_build_analyzer`
falls back to a default engine); `anonymize_text` re-checks both for
`None` regardless. -/

structure RecognizerResult where
  entityType : String
  start : Nat
  stop : Nat
deriving DecidableEq

structure AnalyzerEngine where
  analyze : String → List RecognizerResult

structure AnonymizerEngine where
  anonymize : String → List RecognizerResult → String

/-- The module-level state of `pii.py`: the `ENABLE_PRESIDIO_PII_CLEANING`
flag and the two optional engines. -/
structure PiiModule where
  enabled : Bool
  analyzer : Option AnalyzerEngine
  anonymizer : Option AnonymizerEngine

/-- `pii._env_var_enabled`: truthiness of the configuration variable. -/
def _env_var_enabled (value : Option String) : Bool :=
  match value with
  | none => false
  | some v => [("1" : String), "true", "yes", "y", "on"].contains (pyLower (pyStrip v))

/-- `pii.anonymize_text`: pass-through when disabled, when the input is
empty, when an engine is missing, or when detection yields zero findings;
otherwise the anonymizer engine's output on the detected findings. -/
def anonymize_text (m : PiiModule) (text : String) : String :=
  if !m.enabled then text
  else if text = "" then text
  else
    match m.analyzer, m.anonymizer with
    | some analyzer, some anonymizer =>
      let results := analyzer.analyze text
      if results.isEmpty then text
      else anonymizer.anonymize text results
    | _, _ => text

/-- The findings the module's analyzer reports on a text (empty when no
analyzer is installed). -/
def detectedEntities (m : PiiModule) (text : String) : List RecognizerResult :=
  match m.analyzer with
  | some a => a.analyze text
  | none => []

/-! ### Web Search Adapter invocation (`handlers._respond_with_web_search`)

The call `run_web_search(query)` is an external boundary: its outcome is
either the raised `TavilyNotConfiguredError`, any other exception
(carrying its type name and message), or a result list.  The handler's
observable behavior is the ordered list of UI effects it performs: the
messages it sends, the search call it makes, and the in-place update of
the progress message. -/

structure SearchResult where
  title : Option String
  url : Option String
  content : Option String
  snippet : Option String
deriving DecidableEq

inductive SearchOutcome where
  | notConfigured
  | failure (excType excMessage : String)
  | results (items : List SearchResult)
deriving DecidableEq

inductive SearchEvent where
  | send (content : String)
  | searchCall (query : String)
  | update (content : String)
deriving DecidableEq

def searchUsageMessage : String :=
  "Please provide a query after the `/search` command. Example: `/search latest Chainlit release`"

def searchProgressMessage (query : String) : String :=
  "üîé Searching the web for `" ++ query ++ "`..."

def searchNotConfiguredMessage : String :=
  "‚ö†Ô∏è Web search is not configured. Set the `TAVILY_API_KEY` environment variable and restart the app."

def searchFailedMessage (excType excMessage : String) : String :=
  "‚ùå Web search failed: " ++ excType ++ ": " ++ excMessage

def searchNoResultsMessage (query : String) : String :=
  "üîé No web results found for `" ++ query ++ "`."

def searchResultsHeader : String :=
  "üîé **Web search results:**\n\n"

/-- One formatted entry of the results list: `enumerate(results, start=1)`
index, title falling back to a placeholder, optional link, and the
snippet passed through `anonymize_text` when non-empty, the whole entry
stripped. -/
def formattedResult (anonymize : String → String) (idx : Nat) (r : SearchResult) : String :=
  let title := pyOrString r.title ("Untitled result")
  let url := pyOrString r.url ("")
  let snippet := pyOrString r.content (pyOrString r.snippet (""))
  let sanitizedSnippet := if snippet = "" then ("") else anonymize snippet
  if url ≠ "" then
    pyStrip (toString idx ++ ". **[" ++ title ++ "](" ++ url ++ ")**\n" ++ sanitizedSnippet)
  else
    pyStrip (toString idx ++ ". **" ++ title ++ "**\n" ++ sanitizedSnippet)

/-- `handlers._respond_with_web_search`, as the ordered list of UI effects
of one invocation, given the outcome of the `run_web_search` boundary
call.  Both exception outcomes are caught and turned into an update of
the progress message; nothing propagates. -/
def _respond_with_web_search (anonymize : String → String) (query : String)
    (outcome : SearchOutcome) : List SearchEvent :=
  if query = "" then [.send searchUsageMessage]
  else
    .send (searchProgressMessage query) :: .searchCall query ::
      match outcome with
      | .notConfigured => [.update searchNotConfiguredMessage]
      | .failure ty msg => [.update (searchFailedMessage ty msg)]
      | .results [] => [.update (searchNoResultsMessage query)]
      | .results items =>
          [.update (searchResultsHeader ++
            String.intercalate ("\n\n")
              (items.mapIdx (fun i r => formattedResult anonymize (i + 1) r)))]

/-! ### Session state and the Message Router (`handlers.main`) -/

inductive HistoryMessage where
  | user (content : String)
  | ai (content : String)
deriving DecidableEq

/-- The per-session keys `handlers` reads and writes: `chain` (the
document chain, modelled by the text it was built over), `file_name`,
and `general_history`. -/
structure Session where
  chain : Option String
  fileName : Option String
  generalHistory : Option (List HistoryMessage)
deriving DecidableEq

/-- The dispatch decision of `handlers.main` (lines 236-247) for the text
part of a turn, carrying the input each strategy receives: the search
path receives the raw query extracted from the unsanitized content,
while the document chain and general chat receive
`sanitized_input = anonymize_text(user_content) if user_content else ""`. -/
inductive Dispatch where
  | webSearch (rawQuery : String)
  | documentChain (input : String)
  | generalChat (input : String)
deriving DecidableEq

def mainDispatch (anonymize : String → String) (userContent : String)
    (chainActive : Bool) : Dispatch :=
  let sanitizedInput := if userContent = "" then ("") else anonymize userContent
  match _extract_search_query userContent with
  | some q => .webSearch q
  | none => if chainActive then .documentChain sanitizedInput else .generalChat sanitizedInput

/-! ### Document Ingestor (`handlers._process_file`)

Reading the uploaded file as UTF-8 is an external boundary with three
outcomes.  The result is the success flag the source returns, the
session state after the call, and the contents of the messages sent
(the initial progress message plus the final notice).  On success, the
chain handle built from the splitter/embedding/retriever pipeline is
modelled by the ingested text it is built over. -/

inductive ReadOutcome where
  | ok (text : String)
  | unicodeDecodeError
  | readError (message : String)
deriving DecidableEq

def processingMessage (name : String) : String :=
  "Processing `" ++ name ++ "`..."

def emptyFileMessage (name : String) : String :=
  "Error: File `" ++ name ++ "` is empty. Please upload a file with content."

def decodeErrorMessage (name : String) : String :=
  "Error: Could not read file `" ++ name ++ "`. Please ensure it\x27s a text file."

def readErrorMessage (name : String) (cause : String) : String :=
  "Error: Failed to read file `" ++ name ++ "`: " ++ cause

def doneMessage (name : String) : String :=
  "Processing `" ++ name ++ "` done. You can now ask questions!"

def _process_file (read : ReadOutcome) (name : String) (s : Session) :
    Bool × Session × List String :=
  match read with
  | .ok text =>
      if pyStrip text = "" then
        (false, s, [processingMessage name, emptyFileMessage name])
      else
        (true, { s with chain := some text, fileName := some name },
          [processingMessage name, doneMessage name])
  | .unicodeDecodeError =>
      (false, s, [processingMessage name, decodeErrorMessage name])
  | .readError cause =>
      (false, s, [processingMessage name, readErrorMessage name cause])

/-! ### General-chat fallback (`handlers._respond_with_general_chat`) -/

def generalChatPrompt : String :=
  "Please enter a question or upload a document to get started."

/-- The outcome of one general-chat turn: the session's `general_history`
value afterwards, the text sent to the user, and whether the language
model was invoked. -/
structure GeneralChatTurn where
  history : Option (List HistoryMessage)
  sent : String
  llmCalled : Bool
deriving DecidableEq

def _respond_with_general_chat (anonymize : String → String)
    (llm : List HistoryMessage → String) (userInput : String)
    (history0 : Option (List HistoryMessage)) : GeneralChatTurn :=
  if pyStrip userInput = "" then
    { history := history0, sent := generalChatPrompt, llmCalled := false }
  else
    let history := history0.getD []
    let withUser := history ++ [.user userInput]
    let sanitizedAnswer := anonymize (llm withUser)
    { history := some (withUser ++ [.ai sanitizedAnswer]),
      sent := sanitizedAnswer, llmCalled := true }

/-! ### Document-chain answer rendering (`handlers.main`, lines 249-267) -/

/-- The outbound text of a document-chain answer: the redacted answer,
with the source-label suffix appended inside the `if source_documents:`
block; `source_names` collects one `source_i` label per returned source
document. -/
def documentChainAnswer (anonymize : String → String) (answer : String)
    (sourceDocuments : List String) : String :=
  let sanitizedAnswer := anonymize answer
  if sourceDocuments.isEmpty then sanitizedAnswer
  else
    let sourceNames := (List.range sourceDocuments.length).map
      (fun i => "source_" ++ toString i)
    sanitizedAnswer ++
      (if sourceNames.isEmpty then ("\nNo sources found")
       else "\nSources: " ++ String.intercalate (", ") sourceNames)

/-! ### Concrete engine instances used in theorems -/

/-- The PII module as built when `ENABLE_PRESIDIO_PII_CLEANING` is unset:
redaction disabled, no engines installed. -/
def piiDisabledModule : PiiModule :=
  { enabled := _env_var_enabled none, analyzer := none, anonymizer := none }

/-- An entity-detection engine that reports a finding both on an original
text and on its redacted form. -/
def reRedactingAnalyzer : AnalyzerEngine :=
  ⟨fun t => if t = "a" ∨ t = "b" then [⟨"PERSON", 0, 1⟩] else []⟩

def reRedactingAnonymizer : AnonymizerEngine :=
  ⟨fun t _ => if t = "a" then ("b") else ("c")⟩

def reRedactingPii : PiiModule :=
  { enabled := true, analyzer := some reRedactingAnalyzer,
    anonymizer := some reRedactingAnonymizer }

/-! ### Helper lemmas -/

theorem anonymize_text_of_detected_nil (m : PiiModule) (y : String)
    (h : detectedEntities m y = []) : anonymize_text m y = y := by
  cases hE : m.enabled
  · simp [anonymize_text, hE]
  · by_cases hy : y = ""
    · simp [anonymize_text, hy]
    · cases hA : m.analyzer with
      | none => simp [anonymize_text, hE, hy, hA]
      | some a =>
        have hres : a.analyze y = [] := by simpa [detectedEntities, hA] using h
        cases hR : m.anonymizer
        · simp [anonymize_text, hE, hy, hA, hR]
        · simp [anonymize_text, hE, hy, hA, hR, hres]

theorem string_data_append (s t : String) : (s ++ t).data = s.data ++ t.data :=
  rfl

theorem take_two_of_append (l1 l2 : List Char) (h : 2 ≤ l1.length) :
    (l1 ++ l2).take 2 = l1.take 2 := by
  rw [List.take_append_eq_append_take, Nat.sub_eq_zero_of_le h, List.take_zero,
    List.append_nil]

theorem string_ne_of_take_two (a b : String) (h : a.data.take 2 ≠ b.data.take 2) :
    a ≠ b :=
  fun he => h (by rw [he])

theorem noResults_take_two (q : String) :
    (searchNoResultsMessage q).data.take 2 = (searchNoResultsMessage ("")).data.take 2 := by
  simp only [searchNoResultsMessage, string_data_append, List.append_assoc]
  rw [take_two_of_append, take_two_of_append] <;> decide

theorem failed_take_two (ty msg : String) :
    (searchFailedMessage ty msg).data.take 2 = (searchFailedMessage ("") ("")).data.take 2 := by
  simp only [searchFailedMessage, string_data_append, List.append_assoc]
  rw [take_two_of_append, take_two_of_append] <;> decide

theorem extract_none_of_strip_empty (s : String) (h : pyStrip s = "") :
    _extract_search_query s = none := by
  by_cases hs : s = ""
  · simp [_extract_search_query, hs]
  · simp only [_extract_search_query, if_neg hs, h]
    decide

/-! ### Claim theorems -/

/-- Claim C5: `_extract_search_query` recognizes, case-insensitively after
trimming, the `/search` and `!search` tokens and the `search:`, `web:`,
`lookup:` prefixes; in particular it maps `"/search latest release"` to
`"latest release"`, `"/search"` to the empty query, `"hello there"` to
absent, and `"  WEB: who won"` to `"who won"`. -/
theorem extractSearchQueryRecognizedForms :
    _extract_search_query ("/search latest release") = some ("latest release") ∧
    _extract_search_query ("/search") = some ("") ∧
    _extract_search_query ("hello there") = none ∧
    _extract_search_query ("  WEB: who won") = some ("who won") ∧
    (∀ s : String, s ≠ "" →
      (pyStartsWith (pyLower (pyStrip s)) ("/search") = true ∨
       pyStartsWith (pyLower (pyStrip s)) ("!search") = true ∨
       pyStartsWith (pyLower (pyStrip s)) ("search:") = true ∨
       pyStartsWith (pyLower (pyStrip s)) ("web:") = true ∨
       pyStartsWith (pyLower (pyStrip s)) ("lookup:") = true) →
      (_extract_search_query s).isSome = true) := by
  refine ⟨by decide, by decide, by decide, by decide, ?_⟩
  intro s hs h
  simp only [_extract_search_query, if_neg hs]
  split_ifs with h1 h2 h3 h4 h5 <;> simp_all

/-- Witness for C5 at the concrete input `"lookup: who won"`. -/
theorem extractSearchQueryRecognizedForms_witness :
    ("lookup: who won" : String) ≠ "" ∧
    (_extract_search_query ("lookup: who won")).isSome = true :=
  ⟨by decide,
   extractSearchQueryRecognizedForms.2.2.2.2 ("lookup: who won") (by decide) (by decide)⟩

/-- Claim C3 (code bug): with at least one returned source document the
response ends with the `Sources:` suffix (here `Sources: source_0` for a
one-chunk document), but with zero returned source documents the
`"\nNo sources found"` branch is unreachable — it sits inside the
`if source_documents:` block, whose guard is false exactly then, and
`source_names` is non-empty whenever that block runs — so the response
is the bare redacted answer with no suffix at all. -/
theorem noSourcesNoticeUnreachable :
    documentChainAnswer (fun s => s) "The answer." ["chunk text"] =
      "The answer.\nSources: source_0" ∧
    documentChainAnswer (fun s => s) "The answer." [] = "The answer." ∧
    ("No sources found".data.isSuffixOf ("The answer.".data)) = false := by
  decide

/-- Claim C6: `anonymize_text` returns its input unchanged when redaction
is disabled, when the input is empty, and when detection yields zero
findings; otherwise it returns exactly the anonymizer engine's
replacement of the detected spans. -/
theorem anonymizePassThroughCases (m : PiiModule) (x : String) :
    (m.enabled = false → anonymize_text m x = x) ∧
    anonymize_text m ("") = "" ∧
    (∀ a, m.analyzer = some a → a.analyze x = [] → anonymize_text m x = x) ∧
    (∀ a r, m.analyzer = some a → m.anonymizer = some r → m.enabled = true →
      x ≠ "" → a.analyze x ≠ [] →
      anonymize_text m x = r.anonymize x (a.analyze x)) := by
  refine ⟨?_, ?_, ?_, ?_⟩
  · intro h; simp [anonymize_text, h]
  · simp [anonymize_text]
  · intro a ha hres
    apply anonymize_text_of_detected_nil
    simp [detectedEntities, ha, hres]
  · intro a r ha hr hen hx hres
    simp [anonymize_text, ha, hr, hen, hx, hres]

/-- Witness for C6: the disabled configuration passes text through. -/
theorem anonymizePassThroughCases_witness :
    anonymize_text piiDisabledModule ("Call John at 555-0100") = "Call John at 555-0100" :=
  (anonymizePassThroughCases piiDisabledModule ("Call John at 555-0100")).1 (by decide)

/-- Claim C7 counterexample: with an enabled engine pair that detects an
entity in the already-redacted text again, `anonymize_text` is not
idempotent — the code contains no mechanism forcing re-detection on
redacted output to be empty. -/
theorem anonymizeNotIdempotentForReRedactingEngine :
    anonymize_text reRedactingPii (anonymize_text reRedactingPii ("a")) ≠
      anonymize_text reRedactingPii ("a") := by
  decide

/-- Claim C7 as amended: `anonymize_text` is idempotent whenever redaction
is disabled or entity detection over the already-redacted output yields
zero findings; the code itself does not guarantee the latter for an
arbitrary detection engine. -/
theorem anonymizeIdempotentWhenRedactedTextClean (m : PiiModule) (x : String)
    (h : m.enabled = false ∨ detectedEntities m (anonymize_text m x) = []) :
    anonymize_text m (anonymize_text m x) = anonymize_text m x := by
  rcases h with h | h
  · simp [anonymize_text, h]
  · exact anonymize_text_of_detected_nil m (anonymize_text m x) h

/-- Witness for the amended C7 at the disabled configuration. -/
theorem anonymizeIdempotentWhenRedactedTextClean_witness :
    anonymize_text piiDisabledModule (anonymize_text piiDisabledModule ("x")) =
      anonymize_text piiDisabledModule ("x") :=
  anonymizeIdempotentWhenRedactedTextClean piiDisabledModule ("x") (by decide)

/-- Claim C8: for a non-empty query, the three web-search outcomes are
surfaced as three distinct notices — a specific not-configured notice, a
specific no-results notice, and a generic failure notice carrying the
exception's type name — each as an update of the progress message, so no
adapter exception escapes the turn. -/
theorem webSearchFailureModesDistinguished (f : String → String) (q : String)
    (hq : q ≠ "") :
    _respond_with_web_search f q SearchOutcome.notConfigured =
      [SearchEvent.send (searchProgressMessage q), SearchEvent.searchCall q,
       SearchEvent.update searchNotConfiguredMessage] ∧
    _respond_with_web_search f q (SearchOutcome.results []) =
      [SearchEvent.send (searchProgressMessage q), SearchEvent.searchCall q,
       SearchEvent.update (searchNoResultsMessage q)] ∧
    (∀ ty msg, _respond_with_web_search f q (SearchOutcome.failure ty msg) =
      [SearchEvent.send (searchProgressMessage q), SearchEvent.searchCall q,
       SearchEvent.update (searchFailedMessage ty msg)]) ∧
    searchNotConfiguredMessage ≠ searchNoResultsMessage q ∧
    (∀ ty msg, searchFailedMessage ty msg ≠ searchNotConfiguredMessage ∧
      searchFailedMessage ty msg ≠ searchNoResultsMessage q) := by
  refine ⟨?_, ?_, ?_, ?_, ?_⟩
  · simp [_respond_with_web_search, hq]
  · simp [_respond_with_web_search, hq]
  · intro ty msg; simp [_respond_with_web_search, hq]
  · apply string_ne_of_take_two
    rw [noResults_take_two]
    decide
  · intro ty msg
    constructor
    · apply string_ne_of_take_two
      rw [failed_take_two]
      decide
    · apply string_ne_of_take_two
      rw [failed_take_two, noResults_take_two]
      decide

/-- Witness for C8 at the concrete query `"x"`. -/
theorem webSearchFailureModesDistinguished_witness :
    _respond_with_web_search (fun s => s) ("x") SearchOutcome.notConfigured =
      [SearchEvent.send (searchProgressMessage ("x")), SearchEvent.searchCall ("x"),
       SearchEvent.update searchNotConfiguredMessage] :=
  (webSearchFailureModesDistinguished (fun s => s) ("x") (by decide)).1

/-- Claim C10: with no active document chain and empty or whitespace-only
input, the turn dispatches to the general-chat path, which sends the
fixed prompt, does not invoke the language model, and leaves the
session's general history exactly as it was. -/
theorem emptyInputGeneralChatNoEffect (f : String → String)
    (llm : List HistoryMessage → String) (userInput : String)
    (history0 : Option (List HistoryMessage)) (h : pyStrip userInput = "") :
    mainDispatch f userInput false =
      Dispatch.generalChat (if userInput = "" then ("") else f userInput) ∧
    _respond_with_general_chat f llm userInput history0 =
      { history := history0, sent := generalChatPrompt, llmCalled := false } := by
  constructor
  · simp [mainDispatch, extract_none_of_strip_empty userInput h]
  · simp [_respond_with_general_chat, h]

/-- Witness for C10 at whitespace-only input with a pre-existing history. -/
theorem emptyInputGeneralChatNoEffect_witness :
    _respond_with_general_chat (fun s => s) (fun _ => ("a reply")) ("  ")
        (some [HistoryMessage.user ("hi")]) =
      { history := some [HistoryMessage.user ("hi")], sent := generalChatPrompt,
        llmCalled := false } :=
  (emptyInputGeneralChatNoEffect (fun s => s) (fun _ => ("a reply")) ("  ")
    (some [HistoryMessage.user ("hi")]) (by decide)).2

/-- Claim C1: whenever the classifier recognizes a search command —
yielding a query, including the empty one — the router dispatches the
turn to the web-search path with that raw query and never to the
document chain (even when one is active) or to general chat; for the
empty query the web-search path sends the usage-help message and
performs no search call. -/
theorem searchCommandShortCircuitsRouting (f : String → String)
    (userContent : String) (chainActive : Bool) (q : String)
    (h : _extract_search_query userContent = some q) :
    mainDispatch f userContent chainActive = Dispatch.webSearch q ∧
    (∀ input, mainDispatch f userContent chainActive ≠ Dispatch.documentChain input) ∧
    (∀ input, mainDispatch f userContent chainActive ≠ Dispatch.generalChat input) ∧
    (q = "" → ∀ (g : String → String) (o : SearchOutcome),
      _respond_with_web_search g q o = [SearchEvent.send searchUsageMessage]) := by
  refine ⟨?_, ?_, ?_, ?_⟩
  · simp [mainDispatch, h]
  · intro input; simp [mainDispatch, h]
  · intro input; simp [mainDispatch, h]
  · intro hq g o
    subst hq
    simp [_respond_with_web_search]

/-- Witness for C1: a search command with an active chain dispatches to
search, and the empty query yields the usage-help message. -/
theorem searchCommandShortCircuitsRouting_witness :
    mainDispatch (fun s => s) ("/search x") true = Dispatch.webSearch ("x") ∧
    _respond_with_web_search (fun s => s) ("") SearchOutcome.notConfigured =
      [SearchEvent.send searchUsageMessage] :=
  ⟨(searchCommandShortCircuitsRouting (fun s => s) ("/search x") true ("x") (by decide)).1,
   (searchCommandShortCircuitsRouting (fun s => s) ("/search") true ("") (by decide)).2.2.2
     rfl (fun s => s) SearchOutcome.notConfigured⟩

/-- Claim C2: every ingestion failure — empty trimmed content, non-UTF-8
bytes, or any other read failure — reports an error notice after the
processing notice and returns the session exactly as it was (no partial
chain); after an empty upload into a fresh session the chain is still
absent, a subsequent question dispatches to general chat, and the
general-chat path answers (with the fixed prompt for empty input) rather
than crashing. -/
theorem failedIngestionPreservesSession (name : String) (s : Session)
    (text : String) (hempty : pyStrip text = "") :
    _process_file (ReadOutcome.ok text) name s =
      (false, s, [processingMessage name, emptyFileMessage name]) ∧
    _process_file ReadOutcome.unicodeDecodeError name s =
      (false, s, [processingMessage name, decodeErrorMessage name]) ∧
    (∀ cause, _process_file (ReadOutcome.readError cause) name s =
      (false, s, [processingMessage name, readErrorMessage name cause])) ∧
    ((_process_file (ReadOutcome.ok text) name ⟨none, none, none⟩).2.1.chain = none ∧
     (∀ f : String → String,
       mainDispatch f ("What does the document say?")
           ((_process_file (ReadOutcome.ok text) name ⟨none, none, none⟩).2.1.chain.isSome) =
         Dispatch.generalChat (f ("What does the document say?"))) ∧
     (∀ (f : String → String) (llm : List HistoryMessage → String),
       _respond_with_general_chat f llm ("")
           ((_process_file (ReadOutcome.ok text) name ⟨none, none, none⟩).2.1.generalHistory) =
         { history := none, sent := generalChatPrompt, llmCalled := false })) := by
  have hpf : _process_file (ReadOutcome.ok text) name ⟨none, none, none⟩ =
      (false, ⟨none, none, none⟩, [processingMessage name, emptyFileMessage name]) := by
    simp [_process_file, hempty]
  refine ⟨by simp [_process_file, hempty], by simp [_process_file],
    fun cause => by simp [_process_file], ?_, ?_, ?_⟩
  · rw [hpf]
  · intro f
    have hx : _extract_search_query ("What does the document say?") = none := by decide
    have hne : ("What does the document say?" : String) ≠ "" := by decide
    rw [hpf]
    simp [mainDispatch, hx, hne]
  · intro f llm
    rw [hpf]
    simp [_respond_with_general_chat]
    decide

/-- Witness for C2: an all-whitespace upload into a session with an
existing chain fails and leaves that session unchanged. -/
theorem failedIngestionPreservesSession_witness :
    _process_file (ReadOutcome.ok (" \n ")) ("notes.txt")
        ⟨some ("old document"), some ("old.txt"), none⟩ =
      (false, ⟨some ("old document"), some ("old.txt"), none⟩,
       [processingMessage ("notes.txt"), emptyFileMessage ("notes.txt")]) :=
  (failedIngestionPreservesSession ("notes.txt")
    ⟨some ("old document"), some ("old.txt"), none⟩ (" \n ") (by decide)).1

/-- Claim C4 counterexample: the query echoed in the web-search progress
message is the raw query, not its image under the filter — with a filter
that redacts the query, the first outbound span of the search path is
the unfiltered template, refuting that every outbound span has been
passed through `anonymize` before being sent. -/
theorem progressMessageEchoesRawQuery :
    ¬ (∀ (f : String → String) (q : String), q ≠ "" → ∀ o : SearchOutcome,
        (_respond_with_web_search f q o).head? =
          some (SearchEvent.send (searchProgressMessage (f q)))) := by
  intro hclaim
  have h := hclaim (fun _ => ("[REDACTED]")) ("John Smith") (by decide)
    SearchOutcome.notConfigured
  revert h
  decide

/-- `"\n\n".join` of a single entry is that entry. -/
theorem intercalate_singleton (sep x : String) : String.intercalate sep [x] = x :=
  rfl

/-- Claim C4 as amended: the router passes the inbound text through the
filter before handing it to the document chain or to general chat, and
the search path passes each non-empty result snippet through the filter
before display; but the search path receives the raw query and echoes it
unfiltered in the progress message. -/
theorem searchPathFiltersSnippetsNotQuery (f : String → String)
    (userContent : String) (q t u snip : String)
    (hq : q ≠ "") (ht : t ≠ "") (hu : u ≠ "") (hsnip : snip ≠ "")
    (hc : userContent ≠ "") (hn : _extract_search_query userContent = none) :
    mainDispatch f userContent true = Dispatch.documentChain (f userContent) ∧
    mainDispatch f userContent false = Dispatch.generalChat (f userContent) ∧
    (∀ o, (_respond_with_web_search f q o).head? =
      some (SearchEvent.send (searchProgressMessage q))) ∧
    _respond_with_web_search f q
        (SearchOutcome.results [⟨some t, some u, some snip, none⟩]) =
      [SearchEvent.send (searchProgressMessage q), SearchEvent.searchCall q,
       SearchEvent.update (searchResultsHeader ++
         pyStrip (("1. **[") ++ t ++ ("](") ++ u ++ (")**\n") ++ f snip))] := by
  refine ⟨?_, ?_, ?_, ?_⟩
  · simp [mainDispatch, hn, hc]
  · simp [mainDispatch, hn, hc]
  · intro o
    simp [_respond_with_web_search, hq]
  · simp only [_respond_with_web_search, if_neg hq, List.mapIdx_cons, List.mapIdx_nil,
      intercalate_singleton]
    simp [formattedResult, pyOrString, ht, hu, hsnip]
    have h1 : (toString (1 : Nat) ++ (". **[" : String)) = ("1. **[") := by decide
    rw [h1]

/-- Witness for the amended C4: a result whose snippet carries the
filter's image, under a constant-output filter. -/
theorem searchPathFiltersSnippetsNotQuery_witness :
    _respond_with_web_search (fun _ => ("<PERSON>")) ("who is X")
        (SearchOutcome.results [⟨some ("Title"), some ("https://e.x"),
          some ("John Smith wrote this"), none⟩]) =
      [SearchEvent.send (searchProgressMessage ("who is X")),
       SearchEvent.searchCall ("who is X"),
       SearchEvent.update (searchResultsHeader ++
         pyStrip (("1. **[") ++ "Title" ++ ("](") ++ "https://e.x" ++ (")**\n") ++
           ("<PERSON>")))] :=
  (searchPathFiltersSnippetsNotQuery (fun _ => ("<PERSON>")) ("hello") ("who is X")
    ("Title") ("https://e.x") ("John Smith wrote this")
    (by decide) (by decide) (by decide) (by decide) (by decide) (by decide)).2.2.2

/-- If the lowered text starts with a pattern whose first character is
`c0`, the text itself starts with a character lowering to `c0`. -/
theorem exists_head_of_lower_startsWith (t p : String) (c0 : Char) (ps : List Char)
    (hp : p.data = c0 :: ps) (h : pyStartsWith (pyLower t) p = true) :
    ∃ c r, t.data = c :: r ∧ c.toLower = c0 := by
  unfold pyStartsWith pyLower at h
  rw [hp] at h
  cases hd : t.data with
  | nil => rw [hd] at h; simp [List.isPrefixOf] at h
  | cons c r =>
    refine ⟨c, r, rfl, ?_⟩
    rw [hd] at h
    simp [List.isPrefixOf] at h
    exact h.1.symm

/-- A character that lowers to a command character is not whitespace. -/
theorem pyIsSpace_false_of_toLower_cmd (c : Char)
    (h : c.toLower = '/' ∨ c.toLower = '!') : pyIsSpace c = false := by
  by_contra hc
  have hc' : pyIsSpace c = true := by revert hc; cases pyIsSpace c <;> simp
  have hmem : ((((c = ' ' ∨ c = '\t') ∨ c = '\n') ∨ c = '\r') ∨ c = Char.ofNat 11) ∨
      c = Char.ofNat 12 := by
    simpa [pyIsSpace, Bool.or_eq_true, decide_eq_true_eq] using hc'
  rcases hmem with ((((h1 | h1) | h1) | h1) | h1) | h1 <;> subst h1 <;> revert h <;> decide

/-- On a text whose first character is not whitespace, the command-token
query is the trimmed text after the first whitespace run. -/
theorem commandTailQuery_eq_tail (t : String) (c : Char) (r : List Char)
    (ht : t.data = c :: r) (hc : pyIsSpace c = false) :
    commandTailQuery t =
      pyStrip ⟨(t.data.dropWhile (fun ch => !pyIsSpace ch)).dropWhile pyIsSpace⟩ := by
  unfold commandTailQuery pySplitMax1
  rw [ht, List.dropWhile_cons]
  simp only [hc, Bool.false_eq_true, if_false]
  rw [if_neg (List.cons_ne_nil c r)]
  by_cases hrest : ((c :: r).dropWhile (fun ch => !pyIsSpace ch)).dropWhile pyIsSpace = []
  · rw [if_pos hrest, hrest]
    rfl
  · rw [if_neg hrest]

/-- Claim C9: the `/search` and `!search` tokens are matched as string
prefixes of the trimmed input, not as standalone words — any input whose
trimmed, lowered form begins with them (even inside a longer first word)
yields the trimmed text after the first whitespace run as the query,
never absent; the empty input yields absent. -/
theorem searchCommandsMatchByPrefix :
    (∀ s : String, s ≠ "" →
      (pyStartsWith (pyLower (pyStrip s)) ("/search") = true ∨
       pyStartsWith (pyLower (pyStrip s)) ("!search") = true) →
      _extract_search_query s =
        some (pyStrip ⟨((pyStrip s).data.dropWhile (fun ch => !pyIsSpace ch)).dropWhile
          pyIsSpace⟩)) ∧
    _extract_search_query ("") = none := by
  constructor
  · intro s hs hpre
    have hex : ∃ c r, (pyStrip s).data = c :: r ∧ (c.toLower = '/' ∨ c.toLower = '!') := by
      rcases hpre with h | h
      · obtain ⟨c, r, h1, h2⟩ := exists_head_of_lower_startsWith (pyStrip s) ("/search")
          '/' ("search".data) (by decide) h
        exact ⟨c, r, h1, Or.inl h2⟩
      · obtain ⟨c, r, h1, h2⟩ := exists_head_of_lower_startsWith (pyStrip s) ("!search")
          '!' ("search".data) (by decide) h
        exact ⟨c, r, h1, Or.inr h2⟩
    obtain ⟨c, r, hdata, hlow⟩ := hex
    have hcsp : pyIsSpace c = false := pyIsSpace_false_of_toLower_cmd c hlow
    have htail := commandTailQuery_eq_tail (pyStrip s) c r hdata hcsp
    by_cases h1 : pyStartsWith (pyLower (pyStrip s)) ("/search") = true
    · simp [_extract_search_query, if_neg hs, h1, htail]
    · have h2 : pyStartsWith (pyLower (pyStrip s)) ("!search") = true :=
        hpre.resolve_left h1
      simp [_extract_search_query, if_neg hs, h1, h2, htail]
  · decide

/-- Witness for C9 at the longer-first-word input `"/searching tips"`. -/
theorem searchCommandsMatchByPrefix_witness :
    ("/searching tips" : String) ≠ "" ∧
    _extract_search_query ("/searching tips") = some ("tips") := by
  refine ⟨by decide, ?_⟩
  have h := searchCommandsMatchByPrefix.1 ("/searching tips") (by decide)
    (Or.inl (by decide))
  exact Eq.trans h (by decide)

end ChainlitBootstrap
